import Mathlib

/-!
Verification development for the PotL0gics poker engine
(`app/poker_engine.py`).  The Python source is shallowly embedded:

* `Card`, `parse_cards`, the `_find_*` helpers, `_evaluate_hand_strength`,
  `evaluate_hand`, `calculate_pot_odds`, `calculate_probabilities` and
  `_create_deck` are translated line by line;
* Python floats are modelled by `ℚ` (the arithmetic performed by the engine
  on the values reached in this development is exact at this precision, and
  no rounding call ever lands on an exact half-way tie, where Python's
  round-half-to-even would differ from the floor-based rounding used here);
* Python exceptions (`ValueError`, `IndexError`, `NameError`,
  `ZeroDivisionError`) are modelled with `Except PyErr`.
-/

namespace PokerEngine

/-- Python exceptions that the engine can raise. -/
inductive PyErr where
  | valueError (msg : String)
  | indexError
  | nameError (missing : String)
  | zeroDivisionError
deriving DecidableEq

/-- A playing card, as in class `Card` (lines 6-24): a rank string and a
suit string.  The Python class defines no `__eq__`; structural equality here
is used only where the source compares rank/suit data explicitly.  Object
identity, which the source's `in` tests on card lists actually use, is
modelled separately by `CardObj` below. -/
structure Card where
  rank : String
  suit : String
deriving DecidableEq

/-- The value dictionary of `Card.get_value` (lines 20-23). -/
def card_values : List (String × Nat) :=
  [("2", 2), ("3", 3), ("4", 4), ("5", 5), ("6", 6), ("7", 7), ("8", 8), ("9", 9),
   ("10", 10), ("J", 11), ("Q", 12), ("K", 13), ("A", 14)]

/-- `Card.get_value` (lines 18-24): dictionary lookup with default 0. -/
def Card.get_value (c : Card) : Nat := (card_values.lookup c.rank).getD 0

/-- `self.ranks` (line 43). -/
def ranks : List String := ["2", "3", "4", "5", "6", "7", "8", "9", "10", "J", "Q", "K", "A"]

/-- `self.suits` (line 44). -/
def suits : List String := ["h", "d", "c", "s"]

/-- A card is one of the 52 cards of the deck. -/
def validCard (c : Card) : Prop := c.rank ∈ ranks ∧ c.suit ∈ suits

instance : DecidablePred validCard := fun c =>
  inferInstanceAs (Decidable (c.rank ∈ ranks ∧ c.suit ∈ suits))

/-- The `HandRank` enumeration (lines 26-37). -/
inductive HandRank where
  | HIGH_CARD
  | PAIR
  | TWO_PAIR
  | THREE_OF_A_KIND
  | STRAIGHT
  | FLUSH
  | FULL_HOUSE
  | FOUR_OF_A_KIND
  | STRAIGHT_FLUSH
  | ROYAL_FLUSH
deriving DecidableEq

/-- The numeric `.value` of each `HandRank` member. -/
def HandRank.value : HandRank → Nat
  | .HIGH_CARD => 1
  | .PAIR => 2
  | .TWO_PAIR => 3
  | .THREE_OF_A_KIND => 4
  | .STRAIGHT => 5
  | .FLUSH => 6
  | .FULL_HOUSE => 7
  | .FOUR_OF_A_KIND => 8
  | .STRAIGHT_FLUSH => 9
  | .ROYAL_FLUSH => 10

/-- ASCII lowering of the suit character (`card_str[-1].lower()`, line 52).
Python lowercases any character; the result is then tested for membership in
`['h','d','c','s']`, so only the four uppercase suit letters can change the
outcome of parsing, and lowering exactly those is extensionally faithful. -/
def lowerSuitChar (c : Char) : Char :=
  if c = 'H' then 'h'
  else if c = 'D' then 'd'
  else if c = 'C' then 'c'
  else if c = 'S' then 's'
  else c

/-- One iteration of the loop in `parse_cards` (lines 49-54): strings of
length ≥ 2 are split into `card_str[:-1]` (rank) and lowered `card_str[-1]`
(suit); a token whose rank or suit is not in the valid sets is dropped. -/
def parse_card (s : String) : Option Card :=
  let cs := s.data
  if 2 ≤ cs.length then
    let rank := String.mk cs.dropLast
    let suit := String.mk [lowerSuitChar (cs.getLastD ' ')]
    if rank ∈ ranks ∧ suit ∈ suits then some ⟨rank, suit⟩ else none
  else none

/-- `parse_cards` (lines 46-55): malformed tokens are silently dropped. -/
def parse_cards (card_strings : List String) : List Card :=
  card_strings.filterMap parse_card

/-- Descending order on cards by value, as used by
`sorted(cards, key=lambda x: x.get_value(), reverse=True)` (line 321). -/
def cardGE (a b : Card) : Prop := b.get_value ≤ a.get_value

instance : DecidableRel cardGE := fun a b => Nat.decLe b.get_value a.get_value

instance : IsTotal Card cardGE := ⟨fun a b => Nat.le_total b.get_value a.get_value⟩

instance : IsTrans Card cardGE := ⟨fun _ _ _ h1 h2 => Nat.le_trans h2 h1⟩

/-- Descending order on naturals, for sorted value lists. -/
def natGE (a b : Nat) : Prop := b ≤ a

instance : DecidableRel natGE := fun a b => Nat.decLe b a

instance : IsTotal Nat natGE := ⟨fun a b => Nat.le_total b a⟩

instance : IsTrans Nat natGE := ⟨fun _ _ _ h1 h2 => Nat.le_trans h2 h1⟩

instance : IsAntisymm Nat natGE := ⟨fun _ _ h1 h2 => Nat.le_antisymm h2 h1⟩

/-- The sorted card list of line 321.  `insertionSort` is a stable sort, like
Python's `sorted`; for the hands considered here the result is observed only
through card values, so stability is not load-bearing. -/
def sorted_cards_of (cards : List Card) : List Card := List.insertionSort cardGE cards

/-- The suit list `[card.suit for card in cards]` (line 324). -/
def suits_of (cards : List Card) : List String := cards.map Card.suit

/-- The flush-suit scan of lines 325-329.  The source iterates over
`set(suits)` in CPython's unspecified set order and stops at the first suit
with count ≥ 5; at most one suit of a ≤ 9-card hand can have count ≥ 5, so
scanning the fixed suit list is extensionally faithful for every hand of 5-7
valid cards. -/
def flush_suit_of (cards : List Card) : Option String :=
  suits.find? fun s => decide (5 ≤ (suits_of cards).count s)

/-- The card values in descending order (`values`, line 332). -/
def values_of (cards : List Card) : List Nat := (sorted_cards_of cards).map Card.get_value

/-- The values of the first five sorted cards of the given suit
(`flush_cards`, line 354, mapped to values). -/
def flush_values_of (cards : List Card) (s : String) : List Nat :=
  (((sorted_cards_of cards).filter fun c => c.suit == s).map Card.get_value).take 5

/-- The scan of lines 388-390: walk the descending distinct values and
return the first `unique_values[i]` with `unique_values[i] - unique_values[i+4] == 4`.
The subtraction is on a descending list, so natural truncated subtraction
agrees with Python's integer subtraction wherever the comparison with 4 is
made. -/
def straightScan : List Nat → Option Nat
  | [] => none
  | a :: rest =>
    match rest.get? 3 with
    | some e => if a - e == 4 then some a else straightScan rest
    | none => none

/-- `_find_straight_high` (lines 379-392): the wheel check of line 384 runs
before the scan for other straights, so A-2-3-4-5 in the values returns 5
even when a higher straight is also present. -/
def _find_straight_high (values : List Nat) : Option Nat :=
  let unique_values := List.insertionSort natGE values.dedup
  if 14 ∈ unique_values ∧ 2 ∈ unique_values ∧ 3 ∈ unique_values ∧
      4 ∈ unique_values ∧ 5 ∈ unique_values then
    some 5
  else straightScan unique_values

/-- `_find_four_of_a_kind` (lines 394-399).  The source iterates `set(values)`
in CPython's unspecified order; at most one value of a ≤ 7-card hand can have
count 4, so iterating the distinct values in list order is faithful there. -/
def _find_four_of_a_kind (values : List Nat) : Option Nat :=
  values.dedup.find? fun v => values.count v == 4

/-- `_find_full_house` (lines 401-420).  `value_counts` is a dict whose keys
appear in first-insertion order, i.e. the order of the distinct values; the
fold reproduces the two `if count >= 3 / elif count >= 2` maxima.  A value
with count ≥ 3 is only ever a triple candidate (the `elif` hides it from the
pair slot).  The final `if three_kind and pair` uses Python truthiness, so a
0 value (impossible for parsed cards) would be treated as absent. -/
def _find_full_house (values : List Nat) : Option (Nat × Nat) :=
  let step : Option Nat × Option Nat → Nat → Option Nat × Option Nat := fun acc v =>
    if 3 ≤ values.count v then
      (match acc.1 with
        | none => some v
        | some t => if t < v then some v else some t, acc.2)
    else if 2 ≤ values.count v then
      (acc.1,
        match acc.2 with
        | none => some v
        | some p => if p < v then some v else some p)
    else acc
  match values.dedup.foldl step (none, none) with
  | (some t, some p) => if t ≠ 0 ∧ p ≠ 0 then some (t, p) else none
  | _ => none

/-- `_find_three_of_a_kind` (lines 422-427).  As with four of a kind the
source iterates `set(values)`; when two distinct values both have count 3
CPython's set order decides which is returned, and no property proved below
depends on that choice beyond the hand category. -/
def _find_three_of_a_kind (values : List Nat) : Option Nat :=
  values.dedup.find? fun v => values.count v == 3

/-- `_find_two_pair` (lines 429-439): collect all values of count exactly 2,
and if there are at least two of them return the two largest. -/
def _find_two_pair (values : List Nat) : Option (Nat × Nat) :=
  let pairs := values.dedup.filter fun v => values.count v == 2
  match List.insertionSort natGE pairs with
  | a :: b :: _ => some (a, b)
  | _ => none

/-- `_find_pair` (lines 441-446). -/
def _find_pair (values : List Nat) : Option Nat :=
  values.dedup.find? fun v => values.count v == 2

/-- Python truthiness of an optional integer (`if four_kind:` etc.). -/
def pyTruthyNat : Option Nat → Bool
  | some n => n != 0
  | none => false

/-- Python truthiness of an optional string (`if flush_suit and ...`). -/
def pyTruthyStr : Option String → Bool
  | some s => s != ""
  | none => false

/-- `_evaluate_hand_strength` (lines 314-377), the priority cascade.  Note
that the straight-flush test of line 336 only requires *some* flush suit and
*some* straight among all values: it never checks that the straight lies
within the flush suit. -/
def _evaluate_hand_strength (cards : List Card) : HandRank × Nat × List Nat :=
  if cards.length < 5 then (.HIGH_CARD, 0, [])
  else
    let flush_suit := flush_suit_of cards
    let values := values_of cards
    let straight_high := _find_straight_high values
    if pyTruthyStr flush_suit && pyTruthyNat straight_high then
      if straight_high.getD 0 == 14 then (.ROYAL_FLUSH, 14, [])
      else (.STRAIGHT_FLUSH, straight_high.getD 0, [])
    else if pyTruthyNat (_find_four_of_a_kind values) then
      (.FOUR_OF_A_KIND, (_find_four_of_a_kind values).getD 0, [])
    else if (_find_full_house values).isSome then
      (.FULL_HOUSE, ((_find_full_house values).getD (0, 0)).1,
        [((_find_full_house values).getD (0, 0)).2])
    else if pyTruthyStr flush_suit then
      let fv := flush_values_of cards (flush_suit.getD "")
      (.FLUSH, fv.headD 0, fv.drop 1)
    else if pyTruthyNat straight_high then
      (.STRAIGHT, straight_high.getD 0, [])
    else if pyTruthyNat (_find_three_of_a_kind values) then
      (.THREE_OF_A_KIND, (_find_three_of_a_kind values).getD 0, [])
    else if (_find_two_pair values).isSome then
      (.TWO_PAIR, ((_find_two_pair values).getD (0, 0)).1,
        [((_find_two_pair values).getD (0, 0)).2])
    else if pyTruthyNat (_find_pair values) then
      (.PAIR, (_find_pair values).getD 0, [])
    else (.HIGH_CARD, values.headD 0, (values.drop 1).take 4)

example : _evaluate_hand_strength (parse_cards ["Ah", "Kh", "Qh", "Jh", "10h"]) =
    (.ROYAL_FLUSH, 14, []) := by decide

example : _evaluate_hand_strength (parse_cards ["As", "Ks", "Ah", "Kh", "Qd"]) =
    (.TWO_PAIR, 14, [13]) := by decide

/-- Python's `round(x, ndigits)` on the rationals reached in this
development.  Python rounds half to even; no value rounded by the engine in
the claims below is an exact half-way tie, so floor of `x·10^n + 1/2` agrees
with Python there. -/
def pyRound (q : ℚ) (ndigits : Nat) : ℚ :=
  ((⌊q * 10 ^ ndigits + 1 / 2⌋ : ℚ)) / 10 ^ ndigits

/-- The lookup values of `_calculate_hand_strength_percentage` (lines 450-461). -/
def strength_base : HandRank → ℚ
  | .ROYAL_FLUSH => 100
  | .STRAIGHT_FLUSH => 95
  | .FOUR_OF_A_KIND => 90
  | .FULL_HOUSE => 85
  | .FLUSH => 80
  | .STRAIGHT => 75
  | .THREE_OF_A_KIND => 70
  | .TWO_PAIR => 65
  | .PAIR => 60
  | .HIGH_CARD => 50

/-- `_calculate_hand_strength_percentage` (lines 448-468). -/
def _calculate_hand_strength_percentage (hand_rank : HandRank) (hand_value : Nat) : ℚ :=
  min 100 (strength_base hand_rank + ((hand_value : ℚ) - 2) * 0.5)

/-- The `rank_names` dictionary of `_get_hand_description` (lines 472-475). -/
def rank_names : List (Nat × String) :=
  [(2, "2"), (3, "3"), (4, "4"), (5, "5"), (6, "6"), (7, "7"), (8, "8"), (9, "9"),
   (10, "10"), (11, "Jack"), (12, "Queen"), (13, "King"), (14, "Ace")]

/-- `rank_names.get(v, str(v))` as used on lines 477 and 483-487. -/
def rankName (v : Nat) : String := (rank_names.lookup v).getD (toString v)

/-- `_get_hand_description` (lines 470-492).  The `descriptions` dict literal
evaluates every value eagerly, and the FULL_HOUSE and TWO_PAIR entries index
`kickers[0]`; when the kicker list is empty this raises `IndexError` no
matter which rank is being described. -/
def _get_hand_description (hand_rank : HandRank) (hand_value : Nat) (kickers : List Nat) :
    Except PyErr String :=
  match kickers.head? with
  | none => .error .indexError
  | some k =>
    let value_name := rankName hand_value
    .ok (match hand_rank with
      | .ROYAL_FLUSH => "Royal Flush"
      | .STRAIGHT_FLUSH => value_name ++ "-high Straight Flush"
      | .FOUR_OF_A_KIND => "Four " ++ value_name ++ "s"
      | .FULL_HOUSE => "Full House, " ++ value_name ++ "s over " ++ rankName k ++ "s"
      | .FLUSH => value_name ++ "-high Flush"
      | .STRAIGHT => value_name ++ "-high Straight"
      | .THREE_OF_A_KIND => "Three " ++ value_name ++ "s"
      | .TWO_PAIR => "Two Pair, " ++ value_name ++ "s and " ++ rankName k ++ "s"
      | .PAIR => "Pair of " ++ value_name ++ "s"
      | .HIGH_CARD => value_name ++ " High")

/-- The result dictionary of `evaluate_hand` (lines 135-143).  The constant
all-zero `outs` dictionary of `_calculate_outs` (lines 494-507) carries no
information and is omitted. -/
structure EvalResult where
  hand_rank : HandRank
  hand_value : Nat
  strength_percentage : ℚ
  hand_description : String
  hole_cards : List Card
  board_cards : List Card
deriving DecidableEq

/-- `evaluate_hand` (lines 106-143).  A `community_cards` argument of `None`
and of `[]` behave identically (both parse to no cards), so the parameter is
a plain list.  The hand description is built (line 130) before the outs and
the result dict, so an `IndexError` raised there aborts the call. -/
def evaluate_hand (player_cards community_cards : List String) : Except PyErr EvalResult :=
  if player_cards.length < 2 then .error (.valueError "Player must have at least 2 cards")
  else
    let hole_cards := parse_cards player_cards
    let board_cards := parse_cards community_cards
    let all_cards := hole_cards ++ board_cards
    let res := _evaluate_hand_strength all_cards
    let strength := _calculate_hand_strength_percentage res.1 res.2.1
    (_get_hand_description res.1 res.2.1 res.2.2).map fun desc =>
      { hand_rank := res.1
        hand_value := res.2.1
        strength_percentage := pyRound strength 2
        hand_description := desc
        hole_cards := hole_cards
        board_cards := board_cards }

/-- ASCII lowering of a string (`position.lower()`, line 229).  Only ASCII
keys occur in the position table, so lowering the ASCII range is faithful. -/
def lowerAsciiChar (c : Char) : Char :=
  if 'A' ≤ c ∧ c ≤ 'Z' then Char.ofNat (c.toNat + 32) else c

/-- Python `str.lower` restricted to ASCII. -/
def pyLower (s : String) : String := String.mk (s.data.map lowerAsciiChar)

/-- `_calculate_implied_odds` (lines 208-237).  `bet_to_call` is accepted and
ignored, exactly as in the source. -/
def _calculate_implied_odds (pot_size bet_to_call : ℚ) (position : String)
    (num_players : Nat) : ℚ :=
  let base_multiplier : ℚ := 1
  let p := pyLower position
  let position_mult : ℚ :=
    if p = "button" then 1.2
    else if p = "cutoff" then 1.1
    else if p = "middle" then 1
    else if p = "early" then 0.9
    else if p = "blinds" then 1
    else 1
  let player_multiplier : ℚ := max 0.8 (1 - ((num_players : ℚ) - 2) * 0.1)
  pot_size * base_multiplier * position_mult * player_multiplier

/-- The `rank_equity` lookup of `_calculate_equity` (lines 257-268). -/
def rank_equity : HandRank → ℚ
  | .ROYAL_FLUSH => 95
  | .STRAIGHT_FLUSH => 90
  | .FOUR_OF_A_KIND => 85
  | .FULL_HOUSE => 80
  | .FLUSH => 75
  | .STRAIGHT => 70
  | .THREE_OF_A_KIND => 65
  | .TWO_PAIR => 60
  | .PAIR => 55
  | .HIGH_CARD => 50

/-- `_calculate_equity` (lines 239-275). -/
def _calculate_equity (player_cards community_cards : List String) (num_players : Nat) : ℚ :=
  let hole_cards := parse_cards player_cards
  let board_cards := parse_cards community_cards
  let res := _evaluate_hand_strength (hole_cards ++ board_cards)
  let base_equity := rank_equity res.1
  let player_adjustment := max 0.5 (1 - ((num_players : ℚ) - 2) * 0.1)
  base_equity * player_adjustment

/-- `_calculate_expected_value` (lines 277-289). -/
def _calculate_expected_value (pot_size bet_to_call equity implied_odds : ℚ) : ℚ :=
  equity / 100 * (pot_size + implied_odds) - bet_to_call

/-- `_generate_recommendation` (lines 291-312).  When `ev > 0` the source
evaluates `bet_to_call * 0.5` (line 305), but `bet_to_call` is not a
parameter of this method and is bound nowhere in its scope, so Python raises
`NameError` before either call string can be returned. -/
def _generate_recommendation (pot_odds equity ev : ℚ) : Except PyErr String :=
  if equity = 0 then .ok "Insufficient information to make recommendation"
  else if 0 < ev then .error (.nameError "bet_to_call")
  else if pot_odds < equity then .ok "Call - equity exceeds pot odds"
  else .ok "Fold - equity below pot odds"

/-- The result dictionary of `calculate_pot_odds` (lines 95-104). -/
structure OddsResult where
  pot_odds_ratio : ℚ
  pot_odds_percentage : ℚ
  implied_odds : ℚ
  equity : ℚ
  expected_value : ℚ
  is_profitable : Bool
  recommendation : String
  break_even_equity : ℚ
deriving DecidableEq

/-- `calculate_pot_odds` (lines 57-104).  The division on line 69 raises
`ZeroDivisionError` when `pot_size + bet_to_call` is zero; card list
arguments of `None` are passed as `[]` (both are falsy on line 79). -/
def calculate_pot_odds (pot_size bet_to_call : ℚ) (player_cards community_cards : List String)
    (position : String) (num_players : Nat) : Except PyErr OddsResult :=
  if pot_size + bet_to_call = 0 then .error .zeroDivisionError
  else
    let pot_odds_ratio := bet_to_call / (pot_size + bet_to_call)
    let pot_odds_percentage := pot_odds_ratio * 100
    let implied_odds := _calculate_implied_odds pot_size bet_to_call position num_players
    let equity : ℚ :=
      if player_cards ≠ [] ∧ community_cards ≠ [] then
        _calculate_equity player_cards community_cards num_players
      else 0
    let is_profitable : Bool :=
      if 0 < equity then decide (pot_odds_percentage < equity) else false
    let ev := _calculate_expected_value pot_size bet_to_call equity implied_odds
    (_generate_recommendation pot_odds_percentage equity ev).map fun recommendation =>
      { pot_odds_ratio := pyRound pot_odds_ratio 4
        pot_odds_percentage := pyRound pot_odds_percentage 2
        implied_odds := pyRound implied_odds 2
        equity := pyRound equity 2
        expected_value := pyRound ev 2
        is_profitable := is_profitable
        recommendation := recommendation
        break_even_equity := pyRound pot_odds_percentage 2 }

/-- The result dictionary of `calculate_probabilities` (lines 201-206). -/
structure ProbResult where
  win_probability : ℚ
  tie_probability : ℚ
  lose_probability : ℚ
  simulations : Nat
deriving DecidableEq

/-- `calculate_probabilities` (lines 145-206).  After the validation of
lines 154-155 the method parses the known cards (line 158) and enters the
trial loop.  The first iteration evaluates
`board_cards + random.sample(deck, remaining_community)` (line 170), and the
name `board_cards` is bound nowhere in this method (only `known_cards` is),
so Python raises `NameError` before any random sampling happens; every run
with at least one simulation fails this way.  With zero simulations the loop
body never runs and `wins / num_simulations` (line 197) raises
`ZeroDivisionError`.  No other outcome is reachable, so the random number
generator needs no model. -/
def calculate_probabilities (player_cards community_cards : List String)
    (num_players num_simulations : Nat) : Except PyErr ProbResult :=
  if player_cards.length < 2 then .error (.valueError "Player must have at least 2 cards")
  else
    let _known_cards := parse_cards (player_cards ++ community_cards)
    let _ := num_players
    if num_simulations = 0 then .error .zeroDivisionError
    else .error (.nameError "board_cards")

/-- A Python `Card` *object*: the class defines no `__eq__` or `__hash__`, so
`card not in excluded_cards` (line 515) falls back to comparing object
identity.  Identity is modelled by an explicit object id. -/
structure CardObj where
  rank : String
  suit : String
  oid : Nat
deriving DecidableEq

/-- Python's `in` on a list of `Card` objects: identity comparison. -/
def pyMemId (c : CardObj) (l : List CardObj) : Bool := l.any fun e => e.oid == c.oid

/-- `_create_deck` (lines 509-517).  Each `Card(rank, suit)` constructed in
the loop is a fresh object, so its id differs from the id of every
pre-existing (excluded) card; freshness is modelled by starting the new ids
above the largest excluded id. -/
def _create_deck (excluded_cards : List CardObj) : List CardObj :=
  let maxOid := (excluded_cards.map CardObj.oid).foldr max 0
  let rank_suit_pairs := (ranks.map fun r => suits.map fun s => (r, s)).flatten
  rank_suit_pairs.enum.filterMap fun p =>
    let card : CardObj := ⟨p.2.1, p.2.2, maxOid + 1 + p.1⟩
    if excluded_cards.isEmpty || !pyMemId card excluded_cards then some card else none

example : (_create_deck []).length = 52 := by decide

/-- C1.  The hand 2h 3h 4h 5h 7h 6d 9c holds a heart flush (2,3,4,5,7) and a
mixed-suit straight (3,4,5,6,7), but no five consecutive ranks within any one
suit; the claim says such a hand must not be classified as a straight flush.
The evaluator nevertheless returns STRAIGHT_FLUSH with high card 7, because
line 336 combines *any* flush suit with *any* straight without checking that
the straight lies inside the flush suit. -/
theorem c1_straight_flush_conflates_flush_and_straight :
    _evaluate_hand_strength (parse_cards ["2h", "3h", "4h", "5h", "7h", "6d", "9c"]) =
      (.STRAIGHT_FLUSH, 7, []) ∧
    flush_values_of (parse_cards ["2h", "3h", "4h", "5h", "7h", "6d", "9c"]) "h" =
      [7, 5, 4, 3, 2] := by
  decide

/-- C2.  Excluding the ace of hearts from the deck has no effect: the deck
still has 52 cards and still contains an ace of hearts, because `Card` has no
`__eq__` and the `not in` test of line 515 compares object identity, which
never relates a freshly constructed card to the excluded one.  The claim
requires 51 cards and no ace of hearts. -/
theorem c2_create_deck_ignores_exclusions :
    (_create_deck [⟨"A", "h", 0⟩]).length = 52 ∧
    ((_create_deck [⟨"A", "h", 0⟩]).any fun c => c.rank == "A" && c.suit == "h") = true := by
  decide

/-- C3.  A fully valid request (two hole cards, empty board, two players, one
or more trials) never produces a `SimulationOutcome`: the first trial
evaluates the undefined name `board_cards` (line 170) and raises `NameError`. -/
theorem c3_calculate_probabilities_raises_name_error :
    calculate_probabilities ["Ah", "Kh"] [] 6 1000 = .error (.nameError "board_cards") ∧
    calculate_probabilities ["Ah", "Kh"] ["Qh", "Jh", "10h"] 2 1 =
      .error (.nameError "board_cards") := by
  exact ⟨rfl, rfl⟩

/-- C4.  The hand Ah Ad Ac Kh Kd Kc Qs has two ranks with three cards each;
the claim (two triples count as a full house, aces over kings) requires
FULL_HOUSE with primary 14 and kicker 13.  In `_find_full_house` a rank of
count ≥ 3 is hidden from the pair slot by the `elif` of line 414, so no pair
is found, no full house is returned, and the cascade falls through to three
of a kind. -/
theorem c4_two_triples_not_full_house :
    (_evaluate_hand_strength (parse_cards ["Ah", "Ad", "Ac", "Kh", "Kd", "Kc", "Qs"])).1 =
      HandRank.THREE_OF_A_KIND ∧
    _find_full_house (values_of (parse_cards ["Ah", "Ad", "Ac", "Kh", "Kd", "Kc", "Qs"])) =
      none := by
  decide

/-- C5.  The cards Ah 2d 3c 4s 5h 6d 9c contain both the wheel A-2-3-4-5 and
the higher straight 2-3-4-5-6; the claim requires the 6-high straight.  The
wheel test of line 384 runs before the scan for other straights, so
`_find_straight_high` answers 5 and the hand is scored as a 5-high straight,
contradicting the method's own docstring ("Find the highest straight
possible"). -/
theorem c5_wheel_shadows_higher_straight :
    _find_straight_high (values_of (parse_cards ["Ah", "2d", "3c", "4s", "5h", "6d", "9c"])) =
      some 5 ∧
    _evaluate_hand_strength (parse_cards ["Ah", "2d", "3c", "4s", "5h", "6d", "9c"]) =
      (.STRAIGHT, 5, []) := by
  decide

/-- C6.  The repository's own demonstration input (pot 100, bet 20, hole
Ah Kh, board Qh Jh 10h, button, 3 players) reaches the strong-call branch:
equity is 85.5, so `ev = 0.855 * (100 + 108) - 20 = 157.84 > 0`, and line 305
then evaluates the undefined name `bet_to_call`, raising `NameError` instead
of returning the recommended call string. -/
theorem c6_strong_call_branch_raises_name_error :
    calculate_pot_odds 100 20 ["Ah", "Kh"] ["Qh", "Jh", "10h"] "button" 3 =
      .error (.nameError "bet_to_call") := by
  have heq : _calculate_equity ["Ah", "Kh"] ["Qh", "Jh", "10h"] 3 = 85.5 := by
    have heval : _evaluate_hand_strength
        (parse_cards ["Ah", "Kh"] ++ parse_cards ["Qh", "Jh", "10h"]) =
        (HandRank.ROYAL_FLUSH, 14, []) := by decide
    unfold _calculate_equity
    simp only [heval, rank_equity]
    norm_num
  have him : _calculate_implied_odds 100 20 "button" 3 = 108 := by
    unfold _calculate_implied_odds
    rw [show pyLower "button" = "button" from rfl]
    norm_num
  unfold calculate_pot_odds
  rw [if_neg (by norm_num : ¬((100 : ℚ) + 20 = 0))]
  simp only [heq, him, _calculate_expected_value, _generate_recommendation, ne_eq,
    reduceCtorEq, not_false_eq_true, and_self, if_true, Except.map]
  rw [if_neg (by norm_num : ¬(85.5 : ℚ) = 0),
    if_pos (by norm_num : (0 : ℚ) < 85.5 / 100 * (100 + 108) - 20)]

/-- C10.  With two parsed cards and an empty board the strength evaluator
does return (HIGH_CARD, 0, []) as the claim says, but `evaluate_hand` itself
raises `IndexError`: the description dictionary of lines 479-490 eagerly
evaluates `kickers[0]` in its FULL_HOUSE and TWO_PAIR entries, and the kicker
list is empty. -/
theorem c10_short_hand_raises_index_error :
    _evaluate_hand_strength (parse_cards ["Ah", "Kd"]) = (.HIGH_CARD, 0, []) ∧
    evaluate_hand ["Ah", "Kd"] [] = .error .indexError := by
  constructor
  · decide
  · rfl

/-- Helper: the description builder either raises `IndexError` or returns a
string; no other exception can escape it. -/
theorem get_hand_description_shape (hr : HandRank) (hv : Nat) (ks : List Nat) :
    _get_hand_description hr hv ks = .error .indexError ∨
    ∃ s, _get_hand_description hr hv ks = .ok s := by
  unfold _get_hand_description
  rcases hk : ks.head? with _ | k
  · exact Or.inl rfl
  · exact Or.inr ⟨_, rfl⟩

/-- C9.  `evaluate_hand` fails with the `ValueError` of line 114 exactly when
fewer than 2 hole-card tokens are given (a missing hole-card list is the
empty list); with 2 or more tokens the call either succeeds or raises the
distinct `IndexError` of the description step, never this error. -/
theorem c9_evaluate_hand_value_error_iff (player_cards community_cards : List String) :
    evaluate_hand player_cards community_cards =
        .error (.valueError "Player must have at least 2 cards") ↔
      player_cards.length < 2 := by
  constructor
  · intro h
    by_contra hlen
    simp only [evaluate_hand, if_neg hlen] at h
    rcases get_hand_description_shape
        (_evaluate_hand_strength (parse_cards player_cards ++ parse_cards community_cards)).1
        (_evaluate_hand_strength (parse_cards player_cards ++ parse_cards community_cards)).2.1
        (_evaluate_hand_strength (parse_cards player_cards ++ parse_cards community_cards)).2.2
      with hd | ⟨s, hd⟩ <;> rw [hd] at h <;> simp [Except.map] at h
  · intro h
    unfold evaluate_hand
    rw [if_pos h]

/-- Shared evaluation of `calculate_pot_odds` when no cards are supplied:
equity is 0, the recommendation is the insufficient-information string, and
every numeric field is the rounded value of its defining formula. -/
theorem calculate_pot_odds_no_cards (pot bet : ℚ) (hne : pot + bet ≠ 0) :
    calculate_pot_odds pot bet [] [] "unknown" 2 = .ok
      { pot_odds_ratio := pyRound (bet / (pot + bet)) 4
        pot_odds_percentage := pyRound (bet / (pot + bet) * 100) 2
        implied_odds := pyRound (_calculate_implied_odds pot bet "unknown" 2) 2
        equity := pyRound 0 2
        expected_value :=
          pyRound (_calculate_expected_value pot bet 0
            (_calculate_implied_odds pot bet "unknown" 2)) 2
        is_profitable := false
        recommendation := "Insufficient information to make recommendation"
        break_even_equity := pyRound (bet / (pot + bet) * 100) 2 } := by
  unfold calculate_pot_odds
  rw [if_neg hne]
  simp only [ne_eq, not_true_eq_false, false_and, if_false, lt_self_iff_false,
    _generate_recommendation, if_pos rfl, if_true, Except.map]

/-- Evaluation rule for the rounding helper. -/
theorem pyRound_eq (q : ℚ) (n : Nat) (z : ℤ) (h1 : (z : ℚ) ≤ q * 10 ^ n + 1 / 2)
    (h2 : q * 10 ^ n + 1 / 2 < z + 1) : pyRound q n = (z : ℚ) / 10 ^ n := by
  unfold pyRound
  rw [Int.floor_eq_iff.mpr ⟨h1, h2⟩]

/-- C7, counterexample.  At pot 100 and bet 20 the returned
`pot_odds_ratio` is the 4-decimal rounding 0.1667, not the exact ratio
20/120 = 1/6 stated by the claim; the percentage fields are 16.67 as the
claim's example says. -/
theorem c7_ratio_is_rounded_counterexample :
    calculate_pot_odds 100 20 [] [] "unknown" 2 = .ok
      { pot_odds_ratio := 1667 / 10000
        pot_odds_percentage := 1667 / 100
        implied_odds := 100
        equity := 0
        expected_value := -20
        is_profitable := false
        recommendation := "Insufficient information to make recommendation"
        break_even_equity := 1667 / 100 } ∧
    (1667 / 10000 : ℚ) ≠ 20 / (100 + 20) := by
  have him : _calculate_implied_odds 100 20 "unknown" 2 = 100 := by
    unfold _calculate_implied_odds
    rw [show pyLower "unknown" = "unknown" from rfl]
    norm_num
    simp
  constructor
  · rw [calculate_pot_odds_no_cards 100 20 (by norm_num)]
    rw [him]
    rw [show _calculate_expected_value 100 20 0 100 = -20 by
      unfold _calculate_expected_value; norm_num]
    rw [pyRound_eq ((20 : ℚ) / (100 + 20)) 4 1667 (by norm_num) (by norm_num)]
    rw [pyRound_eq ((20 : ℚ) / (100 + 20) * 100) 2 1667 (by norm_num) (by norm_num)]
    rw [pyRound_eq (100 : ℚ) 2 10000 (by norm_num) (by norm_num)]
    rw [pyRound_eq (0 : ℚ) 2 0 (by norm_num) (by norm_num)]
    rw [pyRound_eq (-20 : ℚ) 2 (-2000) (by norm_num) (by norm_num)]
    norm_num
  · norm_num

/-- C7, amended.  For every pot_size > 0 and bet_to_call ≥ 0, a call without
cards returns pot_odds_ratio equal to bet/(pot+bet) rounded to 4 decimal
places, pot_odds_percentage equal to the exact ratio times 100 rounded to 2
decimal places, and break_even_equity equal to pot_odds_percentage. -/
theorem c7_pot_odds_fields (pot bet : ℚ) (hpot : 0 < pot) (hbet : 0 ≤ bet) :
    ∃ r : OddsResult,
      calculate_pot_odds pot bet [] [] "unknown" 2 = .ok r ∧
      r.pot_odds_ratio = pyRound (bet / (pot + bet)) 4 ∧
      r.pot_odds_percentage = pyRound (bet / (pot + bet) * 100) 2 ∧
      r.break_even_equity = r.pot_odds_percentage := by
  have hne : pot + bet ≠ 0 := by
    have hq : 0 < pot + bet := by linarith
    exact hq.ne'
  exact ⟨_, calculate_pot_odds_no_cards pot bet hne, rfl, rfl, rfl⟩

/-- Witness for C7's amended theorem at the documented example pot 100,
bet 20. -/
theorem c7_pot_odds_fields_witness :
    (0 : ℚ) < 100 ∧ (0 : ℚ) ≤ 20 ∧
    ∃ r : OddsResult,
      calculate_pot_odds 100 20 [] [] "unknown" 2 = .ok r ∧
      r.pot_odds_ratio = pyRound (20 / (100 + 20)) 4 ∧
      r.pot_odds_percentage = pyRound (20 / (100 + 20) * 100) 2 ∧
      r.break_even_equity = r.pot_odds_percentage :=
  ⟨by norm_num, by norm_num, c7_pot_odds_fields 100 20 (by norm_num) (by norm_num)⟩

/-- The descending value list is a function of the card multiset: sorting two
permutations of the same cards yields the same values. -/
theorem values_of_perm {l₁ l₂ : List Card} (hp : l₁.Perm l₂) :
    values_of l₁ = values_of l₂ := by
  apply List.eq_of_perm_of_sorted (r := natGE)
  · exact (((List.perm_insertionSort cardGE l₁).trans hp).trans
      (List.perm_insertionSort cardGE l₂).symm).map Card.get_value
  · exact List.Pairwise.map Card.get_value (fun _ _ h => h)
      (List.sorted_insertionSort cardGE l₁)
  · exact List.Pairwise.map Card.get_value (fun _ _ h => h)
      (List.sorted_insertionSort cardGE l₂)

/-- Suit counts are functions of the card multiset, so the flush-suit scan
is order independent. -/
theorem flush_suit_of_perm {l₁ l₂ : List Card} (hp : l₁.Perm l₂) :
    flush_suit_of l₁ = flush_suit_of l₂ := by
  unfold flush_suit_of
  have hc : ∀ s, (suits_of l₁).count s = (suits_of l₂).count s :=
    fun s => (hp.map Card.suit).count_eq s
  rw [funext fun s => congrArg (fun n => decide (5 ≤ n)) (hc s)]

/-- The descending value list of the cards of one suit is a function of the
card multiset. -/
theorem flush_values_of_perm {l₁ l₂ : List Card} (hp : l₁.Perm l₂) (s : String) :
    flush_values_of l₁ s = flush_values_of l₂ s := by
  unfold flush_values_of
  congr 1
  apply List.eq_of_perm_of_sorted (r := natGE)
  · exact ((((List.perm_insertionSort cardGE l₁).filter _).trans
      (hp.filter _)).trans ((List.perm_insertionSort cardGE l₂).filter _).symm).map
      Card.get_value
  · exact List.Pairwise.map Card.get_value (fun _ _ h => h)
      ((List.sorted_insertionSort cardGE l₁).filter _)
  · exact List.Pairwise.map Card.get_value (fun _ _ h => h)
      ((List.sorted_insertionSort cardGE l₂).filter _)

/-- C8.  Evaluating any permutation of a valid 5-to-7-card set gives exactly
the same category, primary value and kickers: every branch of the cascade is
a function of the descending value list, the flush suit and the descending
flush values, and each of those depends only on the multiset of cards. -/
theorem c8_evaluate_order_independence (l₁ l₂ : List Card) (hperm : l₁.Perm l₂)
    (h5 : 5 ≤ l₁.length) (h7 : l₁.length ≤ 7)
    (hvalid : ∀ c ∈ l₁, validCard c) (hnodup : l₁.Nodup) :
    _evaluate_hand_strength l₁ = _evaluate_hand_strength l₂ := by
  unfold _evaluate_hand_strength
  simp only [hperm.length_eq, values_of_perm hperm, flush_suit_of_perm hperm,
    flush_values_of_perm hperm]

/-- Witness for C8 at a concrete pair of permuted 5-card hands. -/
theorem c8_evaluate_order_independence_witness :
    ([⟨"A", "h"⟩, ⟨"K", "d"⟩, ⟨"7", "c"⟩, ⟨"4", "s"⟩, ⟨"2", "h"⟩] : List Card).Perm
        [⟨"2", "h"⟩, ⟨"4", "s"⟩, ⟨"7", "c"⟩, ⟨"K", "d"⟩, ⟨"A", "h"⟩] ∧
    5 ≤ ([⟨"A", "h"⟩, ⟨"K", "d"⟩, ⟨"7", "c"⟩, ⟨"4", "s"⟩, ⟨"2", "h"⟩] : List Card).length ∧
    ([⟨"A", "h"⟩, ⟨"K", "d"⟩, ⟨"7", "c"⟩, ⟨"4", "s"⟩, ⟨"2", "h"⟩] : List Card).length ≤ 7 ∧
    (∀ c ∈ ([⟨"A", "h"⟩, ⟨"K", "d"⟩, ⟨"7", "c"⟩, ⟨"4", "s"⟩, ⟨"2", "h"⟩] : List Card),
      validCard c) ∧
    ([⟨"A", "h"⟩, ⟨"K", "d"⟩, ⟨"7", "c"⟩, ⟨"4", "s"⟩, ⟨"2", "h"⟩] : List Card).Nodup ∧
    _evaluate_hand_strength [⟨"A", "h"⟩, ⟨"K", "d"⟩, ⟨"7", "c"⟩, ⟨"4", "s"⟩, ⟨"2", "h"⟩] =
      _evaluate_hand_strength [⟨"2", "h"⟩, ⟨"4", "s"⟩, ⟨"7", "c"⟩, ⟨"K", "d"⟩, ⟨"A", "h"⟩] :=
  ⟨by decide, by decide, by decide, by decide, by decide,
    c8_evaluate_order_independence _ _ (by decide) (by decide) (by decide) (by decide)
      (by decide)⟩

end PokerEngine
